import Mathlib

/-!
A shallow embedding of the skynet service actor (src/service/service.go).

The service is an actor: a single goroutine `mux` owns the mutable flags
(`Registered`, and via `Shutdown` the `shuttingDown` flag) and processes one
event at a time from three sources: accepted connections, registration
toggles, and the shutdown signal.  We embed this serialized loop as a fold
over a list of events, each event producing a new state and a trace of
observable actions (directory calls, delegate callbacks, handshake I/O,
connection closes, task spawns).  External collaborators (wire codec,
directory, UUID generation) are modelled by their observable effects: codec
success/failure is a per-connection boolean, directory failures are boolean
parameters, and the identifier generator is an injective counter-indexed
function.
-/

namespace Skynet

/-- Session metadata stored in the client registry (service.go:24). -/
structure ClientInfo where
  Address : String
  deriving DecidableEq, Repr

/-- An accepted TCP connection, abstracted to its remote address and the
outcome of the two handshake I/O operations the actor performs on it:
encoding the server handshake and decoding the client handshake. -/
structure Conn where
  remoteAddr : String
  encodeOk : Bool
  decodeOk : Bool
  deriving DecidableEq, Repr

/-- The per-service mutable state owned by the actor (service.go:28):
the `Registered` flag (from the embedded ServiceInfo), the `shuttingDown`
flag, the client registry, and the state of the identifier generator. -/
structure ServiceState where
  Registered : Bool
  shuttingDown : Bool
  ClientInfo : List (String × ClientInfo)
  nextId : Nat
  deriving DecidableEq, Repr

/-- Observable actions emitted while the embedded code runs: handshake I/O,
registry inserts, connection closes, task spawns, directory calls, delegate
callbacks, channel sends and the shutdown synchronization operations. -/
inductive Action where
  | insertClient (clientId : String)
  | sendHandshake (registered : Bool) (clientId : String)
  | logError
  | closeConn
  | readClientHandshake
  | spawnServe
  | dirRegister
  | dirUnregister
  | dirAdd
  | dirRemove
  | callbackRegistered
  | callbackUnregistered
  | callbackStarted
  | callbackStopped
  | setShuttingDown
  | sendToggle (value : Bool)
  | doneGroupAdd
  | sendDone
  | waitActiveRequests
  | doneGroupDone
  | spawnDrainer
  deriving DecidableEq, Repr

/-- The events the actor loop `mux` selects over (service.go:219): a new
connection from the listener, a registration toggle from `registeredChan`
(carrying also whether the external directory call for this toggle fails),
and the shutdown signal from `doneChan`. -/
inductive Event where
  | conn (c : Conn)
  | toggle (value : Bool) (dirErr : Bool)
  | done
  deriving DecidableEq, Repr

/-- Modelled from the spec: the identifier generator (skynet.UUID, external
to src/service) is required by the spec to produce a fresh, registry-unique,
nonempty client identifier per accepted connection; we model it as an
injective generator indexed by a per-service counter. -/
def skynetUUID (n : Nat) : String :=
  String.mk (List.replicate (n + 1) 'u')

/-- The state produced by `CreateService` (service.go:51): unregistered, not
shutting down, empty client registry. -/
def CreateService : ServiceState :=
  { Registered := false, shuttingDown := false, ClientInfo := [], nextId := 0 }

/-- The actor-side registration (service.go:76): no-op if already
registered; otherwise call the directory (logging a failure), set the flag
to true, and invoke the delegate Registered callback.  The directory
outcome is the `dirErr` parameter. -/
def register (dirErr : Bool) (s : ServiceState) : ServiceState × List Action :=
  if s.Registered then (s, [])
  else
    ({ s with Registered := true },
      [Action.dirRegister] ++ (if dirErr then [Action.logError] else [])
        ++ [Action.callbackRegistered])

/-- The actor-side unregistration (service.go:97): symmetric to `register`. -/
def unregister (dirErr : Bool) (s : ServiceState) : ServiceState × List Action :=
  if !s.Registered then (s, [])
  else
    ({ s with Registered := false },
      [Action.dirUnregister] ++ (if dirErr then [Action.logError] else [])
        ++ [Action.callbackUnregistered])

/-- The actor's handling of one accepted connection (service.go:220):
generate a client identifier, insert it into the registry under the mutex,
encode the server handshake carrying the current `Registered` flag (the
`sendHandshake` action records the values placed in the message; its success
is `c.encodeOk`).  On encode failure: log and move on.  If unregistered:
close the connection.  Otherwise decode the client handshake (success is
`c.decodeOk`); on failure log and move on; on success spawn the serving
task running the RPC dispatcher. -/
def handleConn (c : Conn) (s : ServiceState) : ServiceState × List Action :=
  let clientID := skynetUUID s.nextId
  ({ s with ClientInfo := (clientID, { Address := c.remoteAddr }) :: s.ClientInfo,
            nextId := s.nextId + 1 },
    [Action.insertClient clientID, Action.sendHandshake s.Registered clientID]
      ++ (if c.encodeOk = false then [Action.logError]
          else if s.Registered = false then [Action.closeConn]
          else if c.decodeOk = false then [Action.logError]
          else [Action.readClientHandshake, Action.spawnServe]))

/-- The actor loop (service.go:216): process one event at a time; a
connection runs the handshake, a toggle runs `register` or `unregister`
synchronously, and the shutdown signal spawns the channel drainer and exits
the loop (events after it are not processed by the loop). -/
def mux : List Event → ServiceState → ServiceState × List Action
  | [], s => (s, [])
  | Event.conn c :: rest, s =>
    let p := handleConn c s
    let q := mux rest p.1
    (q.1, p.2 ++ q.2)
  | Event.toggle v e :: rest, s =>
    let p := if v then register e s else unregister e s
    let q := mux rest p.1
    (q.1, p.2 ++ q.2)
  | Event.done :: _, s => (s, [Action.spawnDrainer])

/-- Public Register (service.go:72): send true on the registration channel. -/
def Register (s : ServiceState) : ServiceState × List Action :=
  (s, [Action.sendToggle true])

/-- Public Unregister (service.go:93): send false on the registration
channel. -/
def Unregister (s : ServiceState) : ServiceState × List Action :=
  (s, [Action.sendToggle false])

/-- Public Shutdown (service.go:114), executed in the calling task: if the
shuttingDown flag is set, return immediately; otherwise set the flag, call
Unregister (send the toggle), add to the done group, send the shutdown
signal, wait for active requests to drain, call the directory remove
(logging a failure, given by `removeErr`), invoke the delegate Stopped
callback, and release the done group. -/
def Shutdown (removeErr : Bool) (s : ServiceState) : ServiceState × List Action :=
  if s.shuttingDown then (s, [])
  else
    ({ s with shuttingDown := true },
      [Action.setShuttingDown, Action.sendToggle false, Action.doneGroupAdd,
       Action.sendDone, Action.waitActiveRequests, Action.dirRemove]
        ++ (if removeErr then [Action.logError] else [])
        ++ [Action.callbackStopped, Action.doneGroupDone])

/-- The listener bind (service.go:191): binding either succeeds or panics,
which is fatal to the whole process before the bound notification fires. -/
def listen (bindOk : Bool) : Except String Unit :=
  if bindOk then Except.ok () else Except.error "bind failed"

/-- Start (service.go:145): wait for the bind; a bind failure aborts the
whole startup (nothing after it runs).  On success: start the actor, call
the directory add (logging a failure, given by `addErr`), send the
registration toggle when `registerFlag` is set, and spawn the delegate
Started callback. -/
def Start (bindOk addErr registerFlag : Bool) (s : ServiceState) :
    Except String (ServiceState × List Action) :=
  match listen bindOk with
  | Except.error e => Except.error e
  | Except.ok _ =>
    Except.ok (s,
      [Action.dirAdd] ++ (if addErr then [Action.logError] else [])
        ++ (if registerFlag then [Action.sendToggle true] else [])
        ++ [Action.callbackStarted])

/-- The trace an invocation of `Start` executes: empty when startup aborts
fatally on the bind. -/
def startTrace (r : Except String (ServiceState × List Action)) : List Action :=
  match r with
  | Except.error _ => []
  | Except.ok p => p.2

/-- The registration value carried by the last toggle of an event list
(starting from `b`), i.e. the flag after every toggle has completed
processing. -/
def lastToggle : List Event → Bool → Bool
  | [], b => b
  | Event.toggle v _ :: rest, _ => lastToggle rest v
  | Event.conn _ :: rest, b => lastToggle rest b
  | Event.done :: rest, b => lastToggle rest b

/-- The registration flag and client identifier placed in the first server
handshake message of a trace. -/
def handshakeSent : List Action → Option (Bool × String)
  | [] => none
  | Action.sendHandshake r id :: _ => some (r, id)
  | _ :: rest => handshakeSent rest

/-- An action is a pure channel enqueue (no effect performed by the
caller). -/
def isEnqueue : Action → Bool
  | Action.sendToggle _ => true
  | Action.sendDone => true
  | _ => false

/-- The drain goroutine spawned when the loop exits (service.go:265): it
receives and discards values from the shutdown channel forever.  `fuel`
receive iterations reduce `pending` blocked senders. -/
def drainLoop : Nat → Nat → Nat
  | 0, pending => pending
  | fuel + 1, pending => drainLoop fuel (pending - 1)

/-- Every registry key was produced by the identifier generator at an index
strictly below the generator counter. -/
def registryFresh (s : ServiceState) : Prop :=
  ∀ k ∈ s.ClientInfo.map Prod.fst, ∃ m, m < s.nextId ∧ k = skynetUUID m

/-- One thread of the shutdown guard race model: it has not yet read the
flag, has read it (recording the value seen), or has returned. -/
inductive TState where
  | start
  | checked (sawShutdown : Bool)
  | finished
  deriving DecidableEq, Repr

/-- Two concurrent invocations of Shutdown at the statement granularity of
service.go:115-119: the guard is a plain boolean read followed later by a
separate write, with no atomicity between them.  `bodyRuns` counts how many
times the shutdown sequence body executes. -/
structure RaceState where
  flag : Bool
  t1 : TState
  t2 : TState
  bodyRuns : Nat
  deriving DecidableEq, Repr

/-- One scheduler step of the race model: the chosen thread either reads the
flag (service.go:115) or, having read false, writes the flag and runs the
shutdown body (service.go:119 onward); having read true it returns. -/
def raceStep (s : RaceState) (tid : Bool) : RaceState :=
  match (if tid then s.t1 else s.t2) with
  | TState.start =>
    if tid then { s with t1 := TState.checked s.flag }
    else { s with t2 := TState.checked s.flag }
  | TState.checked sawShutdown =>
    if sawShutdown then
      if tid then { s with t1 := TState.finished }
      else { s with t2 := TState.finished }
    else
      if tid then
        { s with flag := true, t1 := TState.finished, bodyRuns := s.bodyRuns + 1 }
      else
        { s with flag := true, t2 := TState.finished, bodyRuns := s.bodyRuns + 1 }
  | TState.finished => s

/-- Run the race model under a schedule (true picks thread 1). -/
def raceRun : List Bool → RaceState → RaceState
  | [], s => s
  | tid :: rest, s => raceRun rest (raceStep s tid)

/-- Both threads pending, flag clear: the state of two concurrent Shutdown
calls before either has executed a statement. -/
def raceInit : RaceState :=
  { flag := false, t1 := TState.start, t2 := TState.start, bodyRuns := 0 }

/-! Supporting lemmas. -/

theorem skynetUUID_inj {m n : Nat} (h : skynetUUID m = skynetUUID n) : m = n := by
  have h2 := congrArg (fun t => t.data.length) h
  simp [skynetUUID] at h2
  exact h2

theorem skynetUUID_ne_empty (n : Nat) : skynetUUID n ≠ "" := by
  intro h
  have h2 := congrArg (fun t => t.data.length) h
  simp [skynetUUID] at h2

theorem handleConn_fst (c : Conn) (s : ServiceState) :
    (handleConn c s).1 =
      { s with
        ClientInfo := (skynetUUID s.nextId, { Address := c.remoteAddr }) :: s.ClientInfo,
        nextId := s.nextId + 1 } := rfl

theorem handleConn_registered (c : Conn) (s : ServiceState) :
    (handleConn c s).1.Registered = s.Registered := rfl

theorem handshakeSent_handleConn (c : Conn) (s : ServiceState) :
    handshakeSent (handleConn c s).2 = some (s.Registered, skynetUUID s.nextId) := rfl

theorem register_registered (e : Bool) (s : ServiceState) :
    (register e s).1.Registered = true := by
  unfold register
  split
  · next hr => exact hr
  · rfl

theorem unregister_registered (e : Bool) (s : ServiceState) :
    (unregister e s).1.Registered = false := by
  unfold unregister
  split
  · next hr => simpa using hr
  · rfl

theorem register_clientInfo (e : Bool) (s : ServiceState) :
    (register e s).1.ClientInfo = s.ClientInfo := by
  unfold register
  split <;> rfl

theorem unregister_clientInfo (e : Bool) (s : ServiceState) :
    (unregister e s).1.ClientInfo = s.ClientInfo := by
  unfold unregister
  split <;> rfl

theorem mux_registered (pre : List Event) (s0 : ServiceState) (h : Event.done ∉ pre) :
    (mux pre s0).1.Registered = lastToggle pre s0.Registered := by
  induction pre generalizing s0 with
  | nil => rfl
  | cons e rest ih =>
    have h' : Event.done ∉ rest := fun hm => h (List.mem_cons_of_mem _ hm)
    cases e with
    | conn c =>
      simp only [mux, lastToggle]
      rw [ih _ h', handleConn_registered]
    | toggle v dirErr =>
      simp only [mux, lastToggle]
      rw [ih _ h']
      cases v with
      | false => simp [unregister_registered]
      | true => simp [register_registered]
    | done => exact absurd (List.mem_cons_self _ _) h

theorem mux_clientInfo_mono (evs : List Event) (s : ServiceState)
    (x : String × ClientInfo) (hx : x ∈ s.ClientInfo) :
    x ∈ (mux evs s).1.ClientInfo := by
  induction evs generalizing s with
  | nil => exact hx
  | cons e rest ih =>
    cases e with
    | conn c =>
      simp only [mux]
      exact ih _ (by rw [handleConn_fst]; exact List.mem_cons_of_mem _ hx)
    | toggle v dirErr =>
      simp only [mux]
      cases v with
      | false => exact ih _ (by simp [unregister_clientInfo]; exact hx)
      | true => exact ih _ (by simp [register_clientInfo]; exact hx)
    | done => exact hx

theorem mux_done_trace (pre rest : List Event) (s0 : ServiceState)
    (h : Event.done ∉ pre) :
    (mux (pre ++ Event.done :: rest) s0).2 = (mux pre s0).2 ++ [Action.spawnDrainer] := by
  induction pre generalizing s0 with
  | nil => rfl
  | cons e pr ih =>
    have h' : Event.done ∉ pr := fun hm => h (List.mem_cons_of_mem _ hm)
    cases e with
    | conn c =>
      simp only [List.cons_append, mux, List.append_eq]
      rw [ih _ h', List.append_assoc]
    | toggle v dirErr =>
      simp only [List.cons_append, mux, List.append_eq]
      rw [ih _ h', List.append_assoc]
    | done => exact absurd (List.mem_cons_self _ _) h

theorem drainLoop_self (p : Nat) : drainLoop p p = 0 := by
  induction p with
  | zero => rfl
  | succ q ih =>
    show drainLoop q (q + 1 - 1) = 0
    simpa using ih

theorem registryFresh_handleConn (c : Conn) (s : ServiceState) (hf : registryFresh s) :
    registryFresh (handleConn c s).1 := by
  intro k hk
  rw [handleConn_fst] at hk
  simp only [List.map_cons, List.mem_cons] at hk
  cases hk with
  | inl hk => exact ⟨s.nextId, Nat.lt_succ_self _, hk⟩
  | inr hk =>
    obtain ⟨m, hm, hkm⟩ := hf k hk
    exact ⟨m, Nat.lt_succ_of_lt hm, hkm⟩

/-! Claim theorems. -/

/-- C1: for every sequence of register/unregister toggles processed by the
actor loop, the Registered value placed in the server handshake of a
connection handled next equals the value produced by the last toggle that
completed processing before the handshake began (the loop is serialized, so
reads and writes of the flag all happen inside it and no handshake observes
a half-applied toggle). -/
theorem handshake_observes_last_completed_toggle (pre : List Event) (c : Conn)
    (s0 : ServiceState) (h : Event.done ∉ pre) :
    (mux pre s0).1.Registered = lastToggle pre s0.Registered ∧
    handshakeSent (handleConn c (mux pre s0).1).2 =
      some (lastToggle pre s0.Registered, skynetUUID (mux pre s0).1.nextId) := by
  refine ⟨mux_registered pre s0 h, ?_⟩
  rw [handshakeSent_handleConn, mux_registered pre s0 h]

/-- Witness for C1: after the toggles register, unregister, register, the
handshake of the next connection carries Registered = true. -/
theorem handshake_observes_last_completed_toggle_witness :
    (mux [Event.toggle true false, Event.toggle false false, Event.toggle true false]
        CreateService).1.Registered = true ∧
    handshakeSent (handleConn { remoteAddr := "w", encodeOk := true, decodeOk := true }
        (mux [Event.toggle true false, Event.toggle false false, Event.toggle true false]
          CreateService).1).2 = some (true, skynetUUID 0) := by
  have h := handshake_observes_last_completed_toggle
    [Event.toggle true false, Event.toggle false false, Event.toggle true false]
    { remoteAddr := "w", encodeOk := true, decodeOk := true } CreateService (by decide)
  exact h

/-- C2 counterexample: a connection accepted while unregistered whose
server-handshake encoding fails is NOT closed by the actor (the only close
is behind a successful encode), refuting the unconditional "then closes the
connection". -/
theorem unregistered_encode_failure_not_closed :
    CreateService.Registered = false ∧
    Action.closeConn ∉
      (handleConn { remoteAddr := "a", encodeOk := false, decodeOk := true }
        CreateService).2 := by
  decide

/-- C2 (amended): for every connection accepted while the flag is false, the
actor places registered = false and the freshly generated nonempty client
identifier in the server handshake; when the encoding succeeds the
connection is closed (on encoding failure the error is only logged and the
connection stays open); in all cases no serving task is spawned and no
client handshake is read. -/
theorem unregistered_connection_rejected (c : Conn) (s : ServiceState)
    (h : s.Registered = false) :
    Action.sendHandshake false (skynetUUID s.nextId) ∈ (handleConn c s).2 ∧
    skynetUUID s.nextId ≠ "" ∧
    (c.encodeOk = true →
      (handleConn c s).2 =
        [Action.insertClient (skynetUUID s.nextId),
         Action.sendHandshake false (skynetUUID s.nextId), Action.closeConn]) ∧
    Action.spawnServe ∉ (handleConn c s).2 ∧
    Action.readClientHandshake ∉ (handleConn c s).2 := by
  cases hc : c.encodeOk <;>
    simp [handleConn, h, hc, skynetUUID_ne_empty]

/-- Witness for C2 (amended) at a concrete unregistered state and a
connection whose encode succeeds. -/
theorem unregistered_connection_rejected_witness :
    Action.closeConn ∈
      (handleConn { remoteAddr := "a", encodeOk := true, decodeOk := true }
        CreateService).2 ∧
    Action.spawnServe ∉
      (handleConn { remoteAddr := "a", encodeOk := true, decodeOk := true }
        CreateService).2 := by
  have h := unregistered_connection_rejected
    { remoteAddr := "a", encodeOk := true, decodeOk := true } CreateService rfl
  refine ⟨?_, h.2.2.2.1⟩
  rw [h.2.2.1 rfl]
  decide

/-- C3: a connection accepted while registered, whose handshake I/O
succeeds, gets a server handshake with registered = true and a nonempty
client identifier that is unique in the registry (given the generator
freshness invariant, which the handling preserves), then exactly one client
handshake read, then the spawn of the serving task. -/
theorem registered_connection_served (c : Conn) (s : ServiceState)
    (hr : s.Registered = true) (he : c.encodeOk = true) (hd : c.decodeOk = true)
    (hf : registryFresh s) :
    (handleConn c s).2 =
      [Action.insertClient (skynetUUID s.nextId),
       Action.sendHandshake true (skynetUUID s.nextId),
       Action.readClientHandshake, Action.spawnServe] ∧
    skynetUUID s.nextId ≠ "" ∧
    skynetUUID s.nextId ∉ s.ClientInfo.map Prod.fst ∧
    registryFresh (handleConn c s).1 := by
  refine ⟨by simp [handleConn, hr, he, hd], skynetUUID_ne_empty _, ?_,
    registryFresh_handleConn c s hf⟩
  intro hmem
  obtain ⟨m, hm, hk⟩ := hf _ hmem
  exact Nat.ne_of_lt hm (skynetUUID_inj hk).symm

/-- Witness for C3 at a concrete registered state with an empty registry. -/
theorem registered_connection_served_witness :
    (handleConn { remoteAddr := "a", encodeOk := true, decodeOk := true }
        { CreateService with Registered := true }).2 =
      [Action.insertClient (skynetUUID 0), Action.sendHandshake true (skynetUUID 0),
       Action.readClientHandshake, Action.spawnServe] ∧
    skynetUUID 0 ≠ "" := by
  have h := registered_connection_served
    { remoteAddr := "a", encodeOk := true, decodeOk := true }
    { CreateService with Registered := true } rfl rfl rfl
    (by intro k hk; simp [CreateService] at hk)
  exact ⟨h.1, h.2.1⟩

/-- C4: the actor-side register is a no-op when already registered;
otherwise, even when the directory register call fails, it still sets the
local flag to true and still invokes the Registered delegate callback, the
directory error being only logged (the resulting state does not depend on
the directory outcome).  unregister is symmetric for the false direction. -/
theorem register_unregister_optimistic (e : Bool) (s : ServiceState) :
    (s.Registered = true → register e s = (s, [])) ∧
    (s.Registered = false →
      (register e s).1 = { s with Registered := true } ∧
      Action.callbackRegistered ∈ (register e s).2 ∧
      (e = true → Action.logError ∈ (register e s).2)) ∧
    (s.Registered = false → unregister e s = (s, [])) ∧
    (s.Registered = true →
      (unregister e s).1 = { s with Registered := false } ∧
      Action.callbackUnregistered ∈ (unregister e s).2 ∧
      (e = true → Action.logError ∈ (unregister e s).2)) := by
  cases hr : s.Registered <;> cases he : e <;>
    simp [register, unregister, hr, he]

/-- Witness for C4: from the unregistered initial state with a failing
directory call, register still flips the flag and fires the callback. -/
theorem register_unregister_optimistic_witness :
    (register true CreateService).1 = { CreateService with Registered := true } ∧
    Action.callbackRegistered ∈ (register true CreateService).2 ∧
    Action.logError ∈ (register true CreateService).2 := by
  have h := (register_unregister_optimistic true CreateService).2.1 rfl
  exact ⟨h.1, h.2.1, h.2.2 rfl⟩

/-- C5: a non-guarded Shutdown performs, in this order: set the
shuttingDown flag, send the unregister toggle (best-effort unregister), add
to the done group, send the actor stop signal, wait for the in-flight
request counter, best-effort directory remove (error only logged), the
Stopped delegate callback, and the release of the shutdown-completion
synchronization; in particular the wait strictly precedes both the remove
and the Stopped callback, and the release comes last. -/
theorem shutdown_sequence (e : Bool) (s : ServiceState)
    (h : s.shuttingDown = false) :
    (Shutdown e s).2 =
      [Action.setShuttingDown, Action.sendToggle false, Action.doneGroupAdd,
       Action.sendDone, Action.waitActiveRequests, Action.dirRemove]
        ++ (if e then [Action.logError] else [])
        ++ [Action.callbackStopped, Action.doneGroupDone] ∧
    (Shutdown e s).1 = { s with shuttingDown := true } ∧
    (Shutdown e s).2.indexOf Action.waitActiveRequests <
      (Shutdown e s).2.indexOf Action.dirRemove ∧
    (Shutdown e s).2.indexOf Action.waitActiveRequests <
      (Shutdown e s).2.indexOf Action.callbackStopped ∧
    (Shutdown e s).2.getLast? = some Action.doneGroupDone := by
  have ht : (Shutdown e s).2 =
      [Action.setShuttingDown, Action.sendToggle false, Action.doneGroupAdd,
       Action.sendDone, Action.waitActiveRequests, Action.dirRemove]
        ++ (if e then [Action.logError] else [])
        ++ [Action.callbackStopped, Action.doneGroupDone] := by
    simp [Shutdown, h]
  refine ⟨ht, by simp [Shutdown, h], ?_, ?_, ?_⟩ <;>
    · rw [ht]
      cases e <;> decide

/-- Witness for C5 at the initial (not shutting down) state with a failing
directory remove. -/
theorem shutdown_sequence_witness :
    (Shutdown true CreateService).2 =
      [Action.setShuttingDown, Action.sendToggle false, Action.doneGroupAdd,
       Action.sendDone, Action.waitActiveRequests, Action.dirRemove, Action.logError,
       Action.callbackStopped, Action.doneGroupDone] ∧
    (Shutdown true CreateService).2.getLast? = some Action.doneGroupDone := by
  have h := shutdown_sequence true CreateService rfl
  exact ⟨h.1, h.2.2.2.2⟩

/-- C6 counterexample: two concurrent Shutdown invocations, interleaved so
that both read the shuttingDown flag before either writes it (the guard at
service.go:115-119 is a plain boolean check followed by a separate write,
with no atomicity), execute the shutdown sequence body twice — refuting
"for any number of calls to shutdown() (including concurrent ones) the
sequence is executed exactly once". -/
theorem concurrent_shutdown_double_execution :
    (raceRun [true, false, true, false] raceInit).bodyRuns = 2 := by
  decide

/-- C6 (amended): Shutdown is idempotent for non-overlapping invocations:
after any invocation the shuttingDown flag is set and every later
(non-concurrent) invocation is a no-op, so any two sequential calls execute
the shutdown sequence at most once — exactly once when the service was not
already shutting down.  Overlapping concurrent calls may both pass the
non-atomic guard and execute the sequence twice. -/
theorem shutdown_idempotent_sequential (e1 e2 : Bool) (s : ServiceState) :
    (Shutdown e1 s).1.shuttingDown = true ∧
    Shutdown e2 (Shutdown e1 s).1 = ((Shutdown e1 s).1, []) ∧
    ((Shutdown e1 s).2 ++ (Shutdown e2 (Shutdown e1 s).1).2).count
        Action.callbackStopped ≤ 1 ∧
    (s.shuttingDown = false →
      (Shutdown e1 s).2.count Action.callbackStopped = 1) := by
  cases hs : s.shuttingDown <;> cases e1 <;> simp [Shutdown, hs]

/-- Witness for C6 (amended): a second sequential Shutdown after one from
the initial state is a no-op, and the first executed the sequence once. -/
theorem shutdown_idempotent_sequential_witness :
    Shutdown false (Shutdown false CreateService).1 =
      ((Shutdown false CreateService).1, []) ∧
    (Shutdown false CreateService).2.count Action.callbackStopped = 1 := by
  have h := shutdown_idempotent_sequential false false CreateService
  exact ⟨h.2.1, h.2.2.2 rfl⟩

/-- C7 counterexample: Shutdown is not an asynchronous trigger — invoked on
a service that is not shutting down, its own invocation performs the
waiting and the Stopped delegate callback (neither of which is a channel
enqueue) before returning, rather than enqueueing an event whose effect
happens later in actor order. -/
theorem shutdown_not_async_trigger :
    CreateService.shuttingDown = false ∧
    Action.callbackStopped ∈ (Shutdown false CreateService).2 ∧
    isEnqueue Action.callbackStopped = false ∧
    Action.waitActiveRequests ∈ (Shutdown false CreateService).2 ∧
    isEnqueue Action.waitActiveRequests = false := by
  decide

/-- C7 (amended): Register and Unregister perform no effect themselves —
their invocation only sends the toggle on the registration channel (an
unbuffered channel, so the caller blocks until the actor dequeues the
event) and the flag flip and directory call happen afterwards in actor
order; Shutdown however is synchronous: a non-guarded invocation performs
the whole shutdown sequence, including the wait for in-flight requests and
the Stopped callback, in the calling task before it returns. -/
theorem triggers_amended (e : Bool) (s : ServiceState)
    (h : s.shuttingDown = false) :
    (Register s).1 = s ∧ (Register s).2.all isEnqueue = true ∧
    (Unregister s).1 = s ∧ (Unregister s).2.all isEnqueue = true ∧
    Action.waitActiveRequests ∈ (Shutdown e s).2 ∧
    Action.callbackStopped ∈ (Shutdown e s).2 := by
  refine ⟨rfl, rfl, rfl, rfl, ?_, ?_⟩ <;> cases e <;> simp [Shutdown, h]

/-- Witness for C7 (amended) at the initial state. -/
theorem triggers_amended_witness :
    (Register CreateService).2.all isEnqueue = true ∧
    Action.callbackStopped ∈ (Shutdown false CreateService).2 := by
  have h := triggers_amended false CreateService rfl
  exact ⟨h.2.1, h.2.2.2.2.2⟩

/-- C8: when binding the listener fails, startup aborts fatally before any
directory visibility: Start returns the bind error and its trace is empty —
in particular the directory add is never invoked, no registration toggle is
sent, and no serving task is ever spawned for that invocation. -/
theorem bind_failure_fatal (addErr registerFlag : Bool) (s : ServiceState) :
    Start false addErr registerFlag s = Except.error "bind failed" ∧
    startTrace (Start false addErr registerFlag s) = [] ∧
    Action.dirAdd ∉ startTrace (Start false addErr registerFlag s) ∧
    Action.sendToggle true ∉ startTrace (Start false addErr registerFlag s) ∧
    Action.spawnServe ∉ startTrace (Start false addErr registerFlag s) := by
  refine ⟨rfl, rfl, ?_, ?_, ?_⟩ <;> simp [Start, listen, startTrace]

/-- C9: when the actor loop processes the shutdown signal it exits,
spawning the channel drainer as its final action; the drainer receives and
discards every further value sent on the shutdown channel, so any number
of pending subsequent senders all complete (after p receive iterations no
sender of p is still blocked). -/
theorem shutdown_channel_drained (pre rest : List Event) (s0 : ServiceState)
    (p : Nat) (h : Event.done ∉ pre) :
    (mux (pre ++ Event.done :: rest) s0).2 =
      (mux pre s0).2 ++ [Action.spawnDrainer] ∧
    drainLoop p p = 0 :=
  ⟨mux_done_trace pre rest s0 h, drainLoop_self p⟩

/-- Witness for C9: a shutdown signal right after one toggle, with three
pending senders. -/
theorem shutdown_channel_drained_witness :
    (mux [Event.toggle true false, Event.done] CreateService).2 =
      (mux [Event.toggle true false] CreateService).2 ++ [Action.spawnDrainer] ∧
    drainLoop 3 3 = 0 :=
  shutdown_channel_drained [Event.toggle true false] [] CreateService 3 (by decide)

/-- C10: for every accepted connection whose handshake fails with an I/O
error (encode failure, or decode failure while registered), the actor logs
the error and moves on without closing the connection, and the ClientInfo
entry inserted for that connection is in the registry and is never removed
by any later actor event; the only path on which the actor closes a
connection is the registered-flag-false rejection (which requires the
encode to have succeeded). -/
theorem handshake_error_leaves_connection_open (c : Conn) (s : ServiceState) :
    ((c.encodeOk = false ∨ (s.Registered = true ∧ c.decodeOk = false)) →
      Action.logError ∈ (handleConn c s).2 ∧
      Action.closeConn ∉ (handleConn c s).2 ∧
      Action.spawnServe ∉ (handleConn c s).2 ∧
      (skynetUUID s.nextId, { Address := c.remoteAddr }) ∈
        (handleConn c s).1.ClientInfo) ∧
    (∀ evs : List Event, ∀ x ∈ (handleConn c s).1.ClientInfo,
      x ∈ (mux evs (handleConn c s).1).1.ClientInfo) ∧
    (Action.closeConn ∈ (handleConn c s).2 →
      s.Registered = false ∧ c.encodeOk = true) := by
  refine ⟨?_, fun evs x hx => mux_clientInfo_mono evs _ x hx, ?_⟩
  · rintro (hc | ⟨hr, hd⟩)
    · simp [handleConn, hc]
    · cases hc : c.encodeOk <;> simp [handleConn, hr, hd, hc]
  · cases hc : c.encodeOk <;> cases hr : s.Registered <;>
      cases hd : c.decodeOk <;> simp [handleConn, hc, hr, hd]

/-- Witness for C10: a connection whose encode fails at the initial state
is logged, left open, and its registry entry survives a later toggle. -/
theorem handshake_error_leaves_connection_open_witness :
    Action.logError ∈
      (handleConn { remoteAddr := "a", encodeOk := false, decodeOk := true }
        CreateService).2 ∧
    Action.closeConn ∉
      (handleConn { remoteAddr := "a", encodeOk := false, decodeOk := true }
        CreateService).2 ∧
    (skynetUUID 0, { Address := "a" }) ∈
      (mux [Event.toggle true false]
        (handleConn { remoteAddr := "a", encodeOk := false, decodeOk := true }
          CreateService).1).1.ClientInfo := by
  have h := handshake_error_leaves_connection_open
    { remoteAddr := "a", encodeOk := false, decodeOk := true } CreateService
  have h1 := h.1 (Or.inl rfl)
  exact ⟨h1.1, h1.2.1, h.2.1 [Event.toggle true false] _ h1.2.2.2⟩

end Skynet
